import Mathlib

/-!
Shallow embedding of the Thrill profiling/graph scripts
(scripts/json2profile.py and scripts/json2graphviz.py).

Conventions of the embedding:
* Python/JSON scalars are modelled exactly where the scripts inspect them;
  numbers are modelled as exact rationals.
* Python dicts are modelled as association lists with Python dict semantics:
  insertion order is preserved, updating an existing key keeps its position,
  and building a dict from a pair list keeps the last value of a repeated key.
* json.loads is abstracted by attaching the parse result to each input line
  (the none case models a ValueError); per the log contract of the scripts,
  every parsable log line is a JSON object.
* Fallible Python code (KeyError, ValueError, TypeError, IOError) is modelled
  with Except String.
-/

/-- Values produced by json.loads, as inspected by the scripts. -/
inductive JValue : Type where
  | null : JValue
  | bool (b : Bool) : JValue
  | num (q : ℚ) : JValue
  | str (s : String) : JValue
  | arr (elems : List JValue) : JValue
  | obj (fields : List (String × JValue)) : JValue

/-- PyRec is a Python dict with string keys, in insertion order. -/
abbrev PyRec := List (String × JValue)

/-- Membership test, Python k in d for a dict. -/
def dictHas (d : PyRec) (k : String) : Bool :=
  d.any (fun p => p.1 = k)

/-- Lookup, Python d[k] as an Option. -/
def dictGet (d : PyRec) (k : String) : Option JValue :=
  (d.find? (fun p => p.1 = k)).map (fun p => p.2)

/-- Assignment d[k] = v with Python dict semantics: an existing key keeps its
position in the iteration order, a new key goes to the end. -/
def dictSet (d : PyRec) (k : String) (v : JValue) : PyRec :=
  if dictHas d k then d.map (fun p => if p.1 = k then (k, v) else p)
  else d ++ [(k, v)]

/-- Python dict(items): left-to-right insertion, so the first occurrence of a
key fixes its position and the last occurrence fixes its value. -/
def dictOfList (items : List (String × JValue)) : PyRec :=
  items.foldl (fun d p => dictSet d p.1 p.2) []

mutual

/-- Loop body of flatten_dicts in json2profile.py: iterate the items of a
dict, recursing into nested dict values. -/
def flattenItems (sep parent_key : String) : List (String × JValue) → List (String × JValue)
  | [] => []
  | (k, v) :: rest => flattenValue sep parent_key k v ++ flattenItems sep parent_key rest

/-- Flattening of one value of flatten_dicts: a nested dict is recursively
flattened under the extended key (the recursive call returns a dict, whose
items are spliced in), any other value is kept under the extended key. -/
def flattenValue (sep parent_key k : String) : JValue → List (String × JValue)
  | JValue.obj sub =>
      dictOfList (flattenItems sep (if parent_key = "" then k else parent_key ++ sep ++ k) sub)
  | v => [(if parent_key = "" then k else parent_key ++ sep ++ k, v)]

end

/-- Function flatten_dicts of json2profile.py: flatten a nested dict into
d1_d2_key entries; the final dict(items) applies Python dict construction. -/
def flatten_dicts (d : PyRec) (parent_key sep : String) : PyRec :=
  dictOfList (flattenItems sep parent_key d)

/-! Ingestion, json2profile.py lines 37 to 55. -/

/-- One raw input line together with the result of json.loads on it: none
models a ValueError, some r models a successfully parsed JSON object (per the
log contract of the scripts every parsable log line is an object). -/
structure LogLine where
  text : String
  parsed : Option PyRec

/-- Accumulated state of the ingestion loop of json2profile.py: the stats list
and the warnings printed for invalid lines. -/
structure Ingested where
  stats : List PyRec
  warnings : List String

/-- Body of the per-line ingestion loop of json2profile.py: a line that fails
to parse prints a warning naming the line content and is skipped; a parsed
record is flattened and appended only if it carries a class key. -/
def ingestLine (acc : Ingested) (ln : LogLine) : Ingested :=
  match ln.parsed with
  | none => { acc with warnings := acc.warnings ++ ["JSON line invalid: " ++ ln.text] }
  | some r =>
      if dictHas r "class" then { acc with stats := acc.stats ++ [flatten_dicts r "" "_"] }
      else acc

/-- Ingestion of the lines of one opened file. -/
def ingestFile (acc : Ingested) (lines : List LogLine) : Ingested :=
  lines.foldl ingestLine acc

/-- Loop over the input files of json2profile.py; a file that cannot be opened
raises IOError, aborting the loop (the with open statement is not guarded). -/
def readFilesGo : List (String × Option (List LogLine)) → Ingested → Ingested × Option String
  | [], acc => (acc, none)
  | (name, none) :: _, acc => (acc, some ("IOError: cannot open " ++ name))
  | (_, some lines) :: rest, acc => readFilesGo rest (ingestFile acc lines)

/-- Numeric ts field of a record; none models an absent or non-numeric value
(a NaN cell in the DataFrame; per the log contract ts is numeric). -/
def tsKey (r : PyRec) : Option ℚ :=
  match dictGet r "ts" with
  | some (JValue.num q) => some q
  | _ => none

/-- Comparison used to model sort_values by the ts column: ascending on ts
with missing values placed last (na_position last). The source uses the
pandas default quicksort, which guarantees nothing about the relative order
of tied rows; this model fixes one admissible order so that the pipeline
stays executable, and no theorem below relies on the tie order. -/
def tsLeB (a b : PyRec) : Bool :=
  match tsKey a, tsKey b with
  | some x, some y => decide (x ≤ y)
  | some _, none => true
  | none, some _ => false
  | none, none => true

/-- DataFrame sort_values(by ts) of json2profile.py, as a sort on records. -/
def df_sort (stats : List PyRec) : List PyRec :=
  List.insertionSort (fun a b => tsLeB a b = true) stats

/-- Minimum of the ts column, skipping missing cells, as df.ts.min does. -/
def minTs (stats : List PyRec) : Option ℚ :=
  match stats.filterMap tsKey with
  | [] => none
  | x :: xs => some (xs.foldl min x)

/-- Column assignment df.ts = (df.ts - min_ts) / 1e3 on one record; a missing
or non-numeric ts cell stays missing (NaN), modelled by null. -/
def normalizeRec (m : ℚ) (r : PyRec) : PyRec :=
  match tsKey r with
  | some q => dictSet r "ts" (JValue.num ((q - m) / 1000))
  | none => dictSet r "ts" JValue.null

/-- Outcome of the batch phase of json2profile.py (module level code): the
per-line warnings, the Read N json events summary line (absent when an input
file failed to open before it was printed), and either the normalized sorted
record list df_stats or the uncaught exception that aborted the script. -/
structure ProfileRun where
  warnings : List String
  summary : Option String
  result : Except String (List PyRec)

/-- Batch phase of json2profile.py: ingest all files, then build the
DataFrame, sort by ts (KeyError if no record has a ts key, in particular when
no record was ingested), and normalize timestamps to a zero-based axis. -/
def profileRun (files : List (String × Option (List LogLine))) : ProfileRun :=
  match readFilesGo files (Ingested.mk [] []) with
  | (acc, some e) => ProfileRun.mk acc.warnings none (Except.error e)
  | (acc, none) =>
      let summary := "Read " ++ toString acc.stats.length ++ " json events from "
        ++ toString files.length ++ " files"
      if acc.stats.any (fun r => dictHas r "ts") then
        match minTs acc.stats with
        | some m =>
            ProfileRun.mk acc.warnings (some summary)
              (Except.ok ((df_sort acc.stats).map (normalizeRec m)))
        | none =>
            ProfileRun.mk acc.warnings (some summary)
              (Except.error "TypeError: ts column is not numeric")
      else
        ProfileRun.mk acc.warnings (some summary) (Except.error "KeyError: ts")


/-! Model of json2graphviz.py. -/

/-- Entry of the nodes dict of json2graphviz.py: the label and parents values
taken verbatim from the creation record. -/
structure GvNode where
  label : JValue
  parents : JValue

/-- Nodes dict of json2graphviz.py, keyed by the numeric node_id (per the log
contract node ids are numbers). -/
abbrev GvDict := List (ℚ × GvNode)

/-- Assignment nodes[id] = value with Python dict semantics: an existing key
keeps its position and its value is replaced, a new key goes to the end. -/
def gvDictSet (d : GvDict) (k : ℚ) (v : GvNode) : GvDict :=
  if d.any (fun p => p.1 = k) then d.map (fun p => if p.1 = k then (k, v) else p)
  else d ++ [(k, v)]

/-- Subscript data[k] of a Python dict: KeyError when the key is absent. -/
def pyGet (r : PyRec) (k : String) : Except String JValue :=
  match dictGet r k with
  | some v => Except.ok v
  | none => Except.error ("KeyError: " ++ k)

/-- Condition data[class] == cls and data[event] == create of
json2graphviz.py, with Python short-circuit evaluation: the event key is only
read when the class comparison succeeds. -/
def gvMatchesCreate (r : PyRec) (cls : String) : Except String Bool := do
  let c ← pyGet r "class"
  match c with
  | JValue.str s =>
      if s = cls then do
        let e ← pyGet r "event"
        match e with
        | JValue.str t => pure (t = "create")
        | _ => pure false
      else pure false
  | _ => pure false

/-- Body nodes[id] = dict(label, parents) of json2graphviz.py; the record
fields are read in source order node_id, node_label, parents. Node ids are
numbers per the log contract; the model rejects other id values. -/
def gvAddNode (nodes : GvDict) (r : PyRec) : Except String GvDict := do
  let idv ← pyGet r "node_id"
  let lab ← pyGet r "node_label"
  let pars ← pyGet r "parents"
  match idv with
  | JValue.num q => Except.ok (gvDictSet nodes q (GvNode.mk lab pars))
  | _ => Except.error "TypeError: node_id is not a number"

/-- Processing of one parsed record by the two if statements of the
json2graphviz.py input loop (DIABase create, then DIA create). -/
def gvStep (nodes : GvDict) (r : PyRec) : Except String GvDict := do
  let b1 ← gvMatchesCreate r "DIABase"
  let nodes1 ← if b1 then gvAddNode nodes r else pure nodes
  let b2 ← gvMatchesCreate r "DIA"
  if b2 then gvAddNode nodes1 r else pure nodes1

/-- Input loop of json2graphviz.py. The json.loads call is unguarded, so the
first unparsable line raises ValueError and aborts the script. -/
def gvBuild (nodes : GvDict) : List LogLine → Except String GvDict
  | [] => Except.ok nodes
  | ln :: rest =>
      match ln.parsed with
      | none => Except.error ("ValueError: invalid json: " ++ ln.text)
      | some r =>
          match gvStep nodes r with
          | Except.error e => Except.error e
          | Except.ok n2 => gvBuild n2 rest

/-- Style classification table of json2graphviz.py: the chain of if
statements over the node label (the five label lists are disjoint, so the
chain assigns at most one color). -/
def styleColor (label : String) : Option Nat :=
  if label ∈ ["ReadLines", "ReadBinary", "Generate", "GenerateFile",
      "Distribute", "DistributeFile"] then some 1
  else if label ∈ ["PrefixSum", "ReduceBy", "ReducePair", "ReduceToIndex",
      "GroupBy", "GroupByIndex", "Merge", "Sort", "Window", "Zip"] then some 2
  else if label ∈ ["AllGather", "Gather", "Size", "Sum", "Min", "Max",
      "WriteBinary", "WriteLines", "WriteLinesMany"] then some 3
  else if label = "Cache" then some 4
  else if label = "Collapse" then some 5
  else none

/-- Printed graph of json2graphviz.py in structured form: the node statements
(id, label, optional style color) in emission order, then the edge statements
(parent value, node id) in emission order. -/
structure GvOut where
  nodeStmts : List (ℚ × String × Option Nat)
  edgeStmts : List (JValue × ℚ)

/-- Node statement of the first output loop: the label is concatenated with
the id, so a non-string label raises TypeError. -/
def gvNodeStmt (ni : ℚ) (n : GvNode) : Except String (ℚ × String × Option Nat) :=
  match n.label with
  | JValue.str s => Except.ok (ni, s, styleColor s)
  | _ => Except.error "TypeError: label is not a string"

/-- Edge statements of one node in the second output loop: one statement per
entry of the parents list, in list order. Iterating a non-list raises
TypeError (iteration of a string value is outside the log contract and not
modelled). -/
def gvEdges (ni : ℚ) (n : GvNode) : Except String (List (JValue × ℚ)) :=
  match n.parents with
  | JValue.arr ps => Except.ok (ps.map (fun e => (e, ni)))
  | _ => Except.error "TypeError: parents is not iterable"

/-- Output phase of json2graphviz.py: the node loop over nodes.items() in
dict iteration order, then the edge loop in the same order. -/
def gvEmit (nodes : GvDict) : Except String GvOut := do
  let ns ← nodes.mapM (fun p => gvNodeStmt p.1 p.2)
  let es ← nodes.mapM (fun p => gvEdges p.1 p.2)
  pure (GvOut.mk ns es.flatten)

/-- Whole-run outcome of json2graphviz.py: usage message (wrong argument
count exits with status 0), unopenable input file, uncaught exception, or the
printed graph. -/
inductive GvResult where
  | usage (exitCode : Nat)
  | ioError (msg : String)
  | fatal (msg : String)
  | done (out : GvOut)

/-- Invocation of json2graphviz.py with the arguments after the program name
and the readable files: with anything other than exactly one argument it
prints usage and exits 0; an unopenable file raises IOError; otherwise the
graph is built and printed. -/
def gvRun (args : List String) (fs : String → Option (List LogLine)) : GvResult :=
  match args with
  | [f] =>
      match fs f with
      | none => GvResult.ioError ("IOError: cannot open " ++ f)
      | some lines =>
          match gvBuild [] lines with
          | Except.error e => GvResult.fatal e
          | Except.ok nodes =>
              match gvEmit nodes with
              | Except.error e => GvResult.fatal e
              | Except.ok out => GvResult.done out
  | _ => GvResult.usage 0

/-- Process exit status of a json2graphviz.py run: sys.exit(0) after usage,
0 after a normal run, 1 for an uncaught exception. -/
def gvExitCode : GvResult → Nat
  | GvResult.usage c => c
  | GvResult.ioError _ => 1
  | GvResult.fatal _ => 1
  | GvResult.done _ => 0

/-- Label stored in the nodes dict for a given id. -/
def gvLabelOf (nodes : GvDict) (k : ℚ) : Option JValue :=
  (nodes.find? (fun p => p.1 = k)).map (fun p => p.2.label)

/-- Representative worker-rank-0 node-creation record, as json2graphviz.py
and the spec describe it. -/
def mkCreateRec (id : ℚ) (label : String) (parents : List ℚ) : PyRec :=
  [("class", JValue.str "DIABase"), ("event", JValue.str "create"),
   ("worker_rank", JValue.num 0), ("node_id", JValue.num id),
   ("node_label", JValue.str label),
   ("parents", JValue.arr (parents.map JValue.num))]

/-- Log line holding a node-creation record. -/
def mkCreateLine (id : ℚ) (label : String) (parents : List ℚ) : LogLine :=
  LogLine.mk ("create " ++ label) (some (mkCreateRec id label parents))

/-! Store-level query functions of json2profile.py. All of them read the
immutable df_stats snapshot, modelled as the list of normalized records. -/

/-- Column membership key in df: a DataFrame built from dicts has one column
per key occurring in any record. -/
def colExists (store : List PyRec) (k : String) : Bool :=
  store.any (fun r => dictHas r k)

/-- Column access df[k]: KeyError when no record carries the key. -/
def requireCol (store : List PyRec) (k : String) : Except String Unit :=
  if colExists store k then Except.ok () else Except.error ("KeyError: " ++ k)

/-- Numeric cell of a row: none models a NaN cell (key absent) and also a
non-numeric payload value, which the scripts never exercise on these keys. -/
def numCell (r : PyRec) (k : String) : Option ℚ :=
  match dictGet r k with
  | some (JValue.num q) => some q
  | _ => none

/-- Rowwise comparison df[k] == s for a string constant: a missing (NaN) or
non-string cell compares unequal, never raising. -/
def strCellIs (r : PyRec) (k s : String) : Bool :=
  match dictGet r k with
  | some (JValue.str t) => t = s
  | _ => false

/-- Rowwise comparison df[k] == q for a numeric constant. -/
def numCellIs (r : PyRec) (k : String) (q : ℚ) : Bool :=
  match dictGet r k with
  | some (JValue.num x) => x = q
  | _ => false

/-- Function Series of json2profile.py: if the key was never observed in any
record, return an empty frame; otherwise select the profile rows of the class
and project (ts index, key), keeping per-row missing cells as NaN. -/
def Series (store : List PyRec) (sclass key : String) :
    Except String (List (Option ℚ × Option ℚ)) :=
  if colExists store key = false then Except.ok []
  else do
    let _ ← requireCol store "class"
    let _ ← requireCol store "event"
    let _ ← requireCol store "ts"
    Except.ok
      ((store.filter (fun r => strCellIs r "class" sclass && strCellIs r "event" "profile")).map
        (fun r => (tsKey r, numCell r key)))

/-- NaN-propagating addition of two cells, as df[key1] + df[key2]. -/
def addCell (a b : Option ℚ) : Option ℚ :=
  match a, b with
  | some x, some y => some (x + y)
  | _, _ => none

/-- Function SeriesSum of json2profile.py: empty frame when either key was
never observed; otherwise the profile rows of the class with the pointwise
sum of the two cells (NaN when either cell is missing). -/
def SeriesSum (store : List PyRec) (sclass key1 key2 : String) :
    Except String (List (Option ℚ × Option ℚ)) :=
  if (colExists store key1 && colExists store key2) = false then Except.ok []
  else do
    let _ ← requireCol store "class"
    let _ ← requireCol store "event"
    let _ ← requireCol store "ts"
    Except.ok
      ((store.filter (fun r => strCellIs r "class" sclass && strCellIs r "event" "profile")).map
        (fun r => (tsKey r, addCell (numCell r key1) (numCell r key2))))

/-- Python int() on a float: truncation toward zero, computed on the reduced
numerator and positive denominator of the rational. -/
def pyInt (q : ℚ) : ℤ :=
  q.num.tdiv q.den

/-- Grouping lambda of xy_aggregated: int(r / 1e3 * 10) * 1e3 / 10, the start
of the fixed-width window containing r (width 100 on the millisecond axis
produced by normalization). -/
def bucketOf (r : ℚ) : ℚ :=
  ((pyInt (r / 1000 * 10) : ℚ)) * 1000 / 10

/-- Arithmetic mean of the values of one window, as np.average over the
grouped rows. -/
def windowMean (d : List (ℚ × ℚ)) (k : ℚ) : ℚ :=
  let vs := (d.filter (fun p => bucketOf p.1 = k)).map (fun p => p.2)
  vs.sum / (vs.length : ℚ)

/-- Sorted distinct window starts present in the data: groupby emits its
groups in ascending key order. -/
def windowKeys (d : List (ℚ × ℚ)) : List ℚ :=
  List.insertionSort (fun a b : ℚ => a ≤ b) ((d.map (fun p => bucketOf p.1)).dedup)

/-- Function xy_aggregated of json2profile.py: dropna removes rows whose
value cell is NaN, then groupby on the bucket of the ts index (int() on a NaN
index raises), np.average per group, groups in ascending key order. -/
def xy_aggregated (df : List (Option ℚ × Option ℚ)) : Except String (List (ℚ × ℚ)) := do
  let kept := df.filterMap (fun p => match p.2 with
    | some v => some (p.1, v)
    | none => none)
  let d ← kept.mapM (fun p => match p.1 with
    | some t => Except.ok ((t, p.2) : ℚ × ℚ)
    | none => Except.error "ValueError: cannot convert float NaN to integer")
  Except.ok ((windowKeys d).map (fun k => (k, windowMean d k)))

/-! Tables: dia_table, stream_table, stream_summary_table, file_table. -/

/-- Row of dia_table: id index, label, the type and parents payload cells,
and the label_id column label + . + str(id). -/
structure DiaRow where
  id : ℤ
  label : String
  type : JValue
  parents : JValue
  label_id : String

/-- Cell value or NaN, for columns carried along without inspection. -/
def jCell (r : PyRec) (k : String) : JValue :=
  match dictGet r k with
  | some v => v
  | none => JValue.null

/-- Column astype(int) on one cell: converting a NaN cell raises ValueError.
Pandas converts column by column, but every conversion failure raises this
same error, so converting row by row is observationally equal. -/
def intCell (r : PyRec) (k : String) : Except String ℤ :=
  match numCell r k with
  | some q => Except.ok (pyInt q)
  | none => Except.error "ValueError: Cannot convert NA to integer"

/-- Function dia_table of json2profile.py: the representative worker-rank-0
DIABase creation records, with id cast to int and label_id attached. Ids are
not deduplicated: a repeated id yields one row per creation record. -/
def dia_table (store : List PyRec) : Except String (List DiaRow) := do
  let _ ← requireCol store "class"
  let _ ← requireCol store "event"
  let _ ← requireCol store "worker_rank"
  let df := store.filter (fun r => strCellIs r "class" "DIABase"
    && strCellIs r "event" "create" && numCellIs r "worker_rank" 0)
  if df.length = 0 then Except.ok []
  else do
    let _ ← requireCol store "id"
    let _ ← requireCol store "label"
    let _ ← requireCol store "type"
    let _ ← requireCol store "parents"
    df.mapM (fun r => do
      let i ← intCell r "id"
      match dictGet r "label" with
      | some (JValue.str s) =>
          Except.ok (DiaRow.mk i s (jCell r "type") (jCell r "parents")
            (s ++ "." ++ toString i))
      | _ => Except.error "TypeError: label is not a string")

/-- Row of the stream detail table: ts index, stream id, owning node id, the
joined label_id (NaN when the node reference is unresolved), and the rank and
transfer counter columns. -/
structure StreamRow where
  ts : Option ℚ
  id : ℤ
  dia_id : ℤ
  label_id : Option String
  host_rank : ℤ
  worker_rank : ℤ
  rx_net_items : ℤ
  tx_net_items : ℤ
  rx_net_bytes : ℤ
  tx_net_bytes : ℤ
  rx_int_items : ℤ
  tx_int_items : ℤ
  rx_int_bytes : ℤ
  tx_int_bytes : ℤ

/-- Counter columns of stream_table, in the order the source lists them. -/
def streamCols : List String :=
  ["host_rank", "worker_rank", "rx_net_items", "tx_net_items", "rx_net_bytes",
   "tx_net_bytes", "rx_int_items", "tx_int_items", "rx_int_bytes", "tx_int_bytes"]

/-- Conversion of the selected columns of one stream-close record by the
astype(int) calls of stream_table, in source order; the label_id column is
attached later by the merge. -/
def streamRowOf (r : PyRec) : Except String StreamRow := do
  let i ← intCell r "id"
  let d ← intCell r "dia_id"
  let h ← intCell r "host_rank"
  let w ← intCell r "worker_rank"
  let a1 ← intCell r "rx_net_items"
  let a2 ← intCell r "tx_net_items"
  let a3 ← intCell r "rx_net_bytes"
  let a4 ← intCell r "tx_net_bytes"
  let a5 ← intCell r "rx_int_items"
  let a6 ← intCell r "tx_int_items"
  let a7 ← intCell r "rx_int_bytes"
  let a8 ← intCell r "tx_int_bytes"
  Except.ok (StreamRow.mk (tsKey r) i d none h w a1 a2 a3 a4 a5 a6 a7 a8)

/-- Ascending lexicographic comparison on (id, dia_id, host_rank,
worker_rank), the sort_values key list of stream_table. -/
def streamLe (a b : StreamRow) : Bool :=
  if a.id < b.id then true else if b.id < a.id then false
  else if a.dia_id < b.dia_id then true else if b.dia_id < a.dia_id then false
  else if a.host_rank < b.host_rank then true else if b.host_rank < a.host_rank then false
  else decide (a.worker_rank ≤ b.worker_rank)

/-- Left merge of one detail row against dia_table on dia_id: an unresolved
node reference keeps the row with a NaN label_id; a duplicated id in
dia_table duplicates the row, as a pandas merge does. -/
def mergeLabel (dia : List DiaRow) (row : StreamRow) : List StreamRow :=
  match dia.filter (fun m => m.id = row.dia_id) with
  | [] => [{ row with label_id := none }]
  | ms => ms.map (fun m => { row with label_id := some m.label_id })

/-- Function stream_table of json2profile.py: the stream-close records with
all counters cast to int, sorted, and left-joined to dia_table for labels. -/
def stream_table (store : List PyRec) : Except String (List StreamRow) := do
  let _ ← requireCol store "class"
  let _ ← requireCol store "event"
  let df := store.filter (fun r => strCellIs r "class" "Stream" && strCellIs r "event" "close")
  if df.length = 0 then Except.ok []
  else do
    let _ ← (["ts", "id", "dia_id"] ++ streamCols).forM (fun c => requireCol store c)
    let rows ← df.mapM streamRowOf
    let sorted := rows.insertionSort (fun a b => streamLe a b = true)
    let dia ← dia_table store
    Except.ok (sorted.flatMap (mergeLabel dia))

/-- Pre-aggregation row of stream_summary_table, after the combined
rx/tx totals are added and the label join is done. -/
structure SummaryPre where
  id : ℤ
  dia_id : ℤ
  label_id : Option String
  rx_items : ℤ
  tx_items : ℤ
  rx_bytes : ℤ
  tx_bytes : ℤ
  rx_net_items : ℤ
  tx_net_items : ℤ
  rx_net_bytes : ℤ
  tx_net_bytes : ℤ
  rx_int_items : ℤ
  tx_int_items : ℤ
  rx_int_bytes : ℤ
  tx_int_bytes : ℤ

/-- Row of the stream summary table: one row per (id, label_id) group with
all numeric columns summed. -/
structure SummaryRow where
  id : ℤ
  label_id : String
  rx_items : ℤ
  tx_items : ℤ
  rx_bytes : ℤ
  tx_bytes : ℤ
  rx_net_items : ℤ
  tx_net_items : ℤ
  rx_net_bytes : ℤ
  tx_net_bytes : ℤ
  rx_int_items : ℤ
  tx_int_items : ℤ
  rx_int_bytes : ℤ
  tx_int_bytes : ℤ

/-- Conversion and totals computation of one summary row (astype calls of
stream_summary_table in source order, then the four combined columns). -/
def summaryPreOf (r : PyRec) : Except String SummaryPre := do
  let i ← intCell r "id"
  let d ← intCell r "dia_id"
  let a1 ← intCell r "rx_net_items"
  let a2 ← intCell r "tx_net_items"
  let a3 ← intCell r "rx_net_bytes"
  let a4 ← intCell r "tx_net_bytes"
  let a5 ← intCell r "rx_int_items"
  let a6 ← intCell r "tx_int_items"
  let a7 ← intCell r "rx_int_bytes"
  let a8 ← intCell r "tx_int_bytes"
  Except.ok (SummaryPre.mk i d none (a1 + a5) (a2 + a6) (a3 + a7) (a4 + a8)
    a1 a2 a3 a4 a5 a6 a7 a8)

/-- Label join of the summary path, like mergeLabel. -/
def mergeSummaryLabel (dia : List DiaRow) (row : SummaryPre) : List SummaryPre :=
  match dia.filter (fun m => m.id = row.dia_id) with
  | [] => [{ row with label_id := none }]
  | ms => ms.map (fun m => { row with label_id := some m.label_id })

/-- Group keys of groupby([id, label_id]): rows whose label_id is NaN are
dropped by pandas groupby; the remaining distinct pairs come out in ascending
lexicographic order. -/
def summaryKeys (rows : List SummaryPre) : List (ℤ × String) :=
  List.insertionSort
    (fun a b : ℤ × String => a.1 < b.1 ∨ (a.1 = b.1 ∧ a.2 ≤ b.2))
    ((rows.filterMap (fun r => r.label_id.map (fun s => (r.id, s)))).dedup)

/-- Sum of one numeric column over one (id, label_id) group. -/
def summarySum (rows : List SummaryPre) (k : ℤ × String) (f : SummaryPre → ℤ) : ℤ :=
  ((rows.filter (fun r => r.id = k.1 && r.label_id = some k.2)).map f).sum

/-- Function stream_summary_table of json2profile.py: per-stream rows with
combined totals, label join, then groupby (id, label_id) with np.sum. -/
def stream_summary_table (store : List PyRec) : Except String (List SummaryRow) := do
  let _ ← requireCol store "class"
  let _ ← requireCol store "event"
  let df := store.filter (fun r => strCellIs r "class" "Stream" && strCellIs r "event" "close")
  if df.length = 0 then Except.ok []
  else do
    let _ ← (["ts", "id", "dia_id", "rx_net_items", "tx_net_items", "rx_net_bytes",
        "tx_net_bytes", "rx_int_items", "tx_int_items", "rx_int_bytes",
        "tx_int_bytes"]).forM (fun c => requireCol store c)
    let rows ← df.mapM summaryPreOf
    let sorted := rows.insertionSort (fun a b =>
      (if a.id < b.id then true else if b.id < a.id then false
       else decide (a.dia_id ≤ b.dia_id)) = true)
    let dia ← dia_table store
    let merged := sorted.flatMap (mergeSummaryLabel dia)
    Except.ok ((summaryKeys merged).map (fun k =>
      SummaryRow.mk k.1 k.2
        (summarySum merged k (fun r => r.rx_items))
        (summarySum merged k (fun r => r.tx_items))
        (summarySum merged k (fun r => r.rx_bytes))
        (summarySum merged k (fun r => r.tx_bytes))
        (summarySum merged k (fun r => r.rx_net_items))
        (summarySum merged k (fun r => r.tx_net_items))
        (summarySum merged k (fun r => r.rx_net_bytes))
        (summarySum merged k (fun r => r.tx_net_bytes))
        (summarySum merged k (fun r => r.rx_int_items))
        (summarySum merged k (fun r => r.tx_int_items))
        (summarySum merged k (fun r => r.rx_int_bytes))
        (summarySum merged k (fun r => r.tx_int_bytes))))

/-- Pre-merge row of file_table. -/
structure FilePre where
  dia_id : ℤ
  id : ℤ
  host_rank : ℤ
  items : ℤ
  bytes : ℤ

/-- Row of the file table after the label join and final projection. -/
structure FileRow where
  label_id : Option String
  id : ℤ
  host_rank : ℤ
  items : ℤ
  bytes : ℤ

/-- Comparison items > 0 on a cell: a NaN cell compares false, so a record
without an items count is silently dropped by the filter. -/
def itemsPos (r : PyRec) : Bool :=
  match numCell r "items" with
  | some q => decide (0 < q)
  | _ => false

/-- Conversion of one file-close record (astype calls of file_table in
source order). -/
def filePreOf (r : PyRec) : Except String FilePre := do
  let i ← intCell r "id"
  let d ← intCell r "dia_id"
  let h ← intCell r "host_rank"
  let it ← intCell r "items"
  let by2 ← intCell r "bytes"
  Except.ok (FilePre.mk d i h it by2)

/-- Function file_table of json2profile.py: file-close records with a
positive items count, cast to int, sorted by (dia_id, id, host_rank), and
left-joined to dia_table for labels. -/
def file_table (store : List PyRec) : Except String (List FileRow) := do
  let _ ← requireCol store "class"
  let _ ← requireCol store "event"
  let df := store.filter (fun r => strCellIs r "class" "File" && strCellIs r "event" "close")
  if df.length = 0 then Except.ok []
  else do
    let _ ← requireCol store "items"
    let kept := df.filter itemsPos
    let rows ← kept.mapM filePreOf
    let sorted := rows.insertionSort (fun a b =>
      (if a.dia_id < b.dia_id then true else if b.dia_id < a.dia_id then false
       else if a.id < b.id then true else if b.id < a.id then false
       else decide (a.host_rank ≤ b.host_rank)) = true)
    let dia ← dia_table store
    Except.ok (sorted.flatMap (fun row =>
      match dia.filter (fun m => m.id = row.dia_id) with
      | [] => [FileRow.mk none row.id row.host_rank row.items row.bytes]
      | ms => ms.map (fun m => FileRow.mk (some m.label_id) row.id row.host_rank
          row.items row.bytes)))

/-! Concrete demonstration inputs used by witnesses and counterexamples. -/

/-- Two worker-rank-0 creation records with the same id and different labels,
as lines of one json2graphviz.py input file. -/
def conflictLines : List LogLine :=
  [mkCreateLine 1 "A" [], mkCreateLine 1 "B" []]

/-- Nodes dict built by json2graphviz.py from conflictLines. -/
def conflictNodes : GvDict :=
  [(1, GvNode.mk (JValue.str "B") (JValue.arr []))]

/-- Creation records arriving out of id order: id 2 first, id 1 second. -/
def outOfOrderLines : List LogLine :=
  [mkCreateLine 2 "A" [], mkCreateLine 1 "B" []]

/-- Creation records for ids 1, 2, 3 with parents [], [1], [1, 2]. -/
def exampleGraphLines : List LogLine :=
  [mkCreateLine 1 "Generate" [], mkCreateLine 2 "Sort" [1], mkCreateLine 3 "Size" [1, 2]]

/-- Profile record with a class key and a numeric ts, parsing successfully. -/
def goodLine : LogLine :=
  LogLine.mk "good"
    (some [("class", JValue.str "LinuxProcStats"), ("event", JValue.str "profile"),
      ("ts", JValue.num 1000), ("cpu_user", JValue.num 5)])

/-- Line that fails to parse as JSON. -/
def badLine : LogLine := LogLine.mk "oops not json" none

/-- Input batch of one file with one good and one malformed line. -/
def c7File : List (String × Option (List LogLine)) :=
  [("worker.json", some [goodLine, badLine])]

/-- Stream-close record with every expected column present. -/
def mkStreamRec (ts sid dia host worker a1 a2 a3 a4 a5 a6 a7 a8 : ℚ) : PyRec :=
  [("class", JValue.str "Stream"), ("event", JValue.str "close"),
   ("ts", JValue.num ts), ("id", JValue.num sid), ("dia_id", JValue.num dia),
   ("host_rank", JValue.num host), ("worker_rank", JValue.num worker),
   ("rx_net_items", JValue.num a1), ("tx_net_items", JValue.num a2),
   ("rx_net_bytes", JValue.num a3), ("tx_net_bytes", JValue.num a4),
   ("rx_int_items", JValue.num a5), ("tx_int_items", JValue.num a6),
   ("rx_int_bytes", JValue.num a7), ("tx_int_bytes", JValue.num a8)]

/-- File-close record with every column file_table touches. -/
def mkFileRec (ts fid dia host items bytes : ℚ) : PyRec :=
  [("class", JValue.str "File"), ("event", JValue.str "close"),
   ("ts", JValue.num ts), ("id", JValue.num fid), ("dia_id", JValue.num dia),
   ("host_rank", JValue.num host), ("worker_rank", JValue.num 0),
   ("items", JValue.num items), ("bytes", JValue.num bytes)]

/-- Representative DIABase creation record as json2profile.py selects it
(keys id, label, type, parents as the flattened Thrill log carries them). -/
def mkDiaRec (ts did : ℚ) (label : String) : PyRec :=
  [("class", JValue.str "DIABase"), ("event", JValue.str "create"),
   ("ts", JValue.num ts), ("worker_rank", JValue.num 0), ("host_rank", JValue.num 0),
   ("id", JValue.num did), ("label", JValue.str label),
   ("type", JValue.str "DOp"), ("parents", JValue.arr [])]

/-- Stream-close record lacking only the rx_net_bytes counter. -/
def streamRecMissing : PyRec :=
  [("class", JValue.str "Stream"), ("event", JValue.str "close"),
   ("ts", JValue.num 10), ("id", JValue.num 5), ("dia_id", JValue.num 7),
   ("host_rank", JValue.num 0), ("worker_rank", JValue.num 1),
   ("rx_net_items", JValue.num 1), ("tx_net_items", JValue.num 2),
   ("tx_net_bytes", JValue.num 4), ("rx_int_items", JValue.num 5),
   ("tx_int_items", JValue.num 6), ("rx_int_bytes", JValue.num 7),
   ("tx_int_bytes", JValue.num 8)]

/-- Store with one complete and one counter-lacking stream-close record. -/
def c2store : List PyRec :=
  [mkStreamRec 0 5 7 0 0 1 2 3 4 5 6 7 8, streamRecMissing]

/-- Store with a stream-close and a file-close record whose dia_id 7 and 9
resolve to no node (the store holds no creation record at all). -/
def c9store : List PyRec :=
  [mkStreamRec 0 5 7 0 0 1 2 3 4 5 6 7 8, mkFileRec 1 3 9 0 4 100]

/-- Store with one profile record, used to witness the absent-key guards. -/
def c5store : List PyRec :=
  [[("class", JValue.str "LinuxProcStats"), ("event", JValue.str "profile"),
    ("ts", JValue.num 0), ("cpu_user", JValue.num 5)]]

/-- Profile points at t 0, 50, 150, 260 with values 1, 2, 3, 4. -/
def c3demo : List (Option ℚ × Option ℚ) :=
  [(some 0, some 1), (some 50, some 2), (some 150, some 3), (some 260, some 4)]

/-- Does an Except-modelled pandas computation propagate a failure. -/
def exceptFails {α : Type} : Except String α → Bool
  | Except.error _ => true
  | Except.ok _ => false

/-- Graph printed by json2graphviz.py from outOfOrderLines. -/
def outOfOrderOut : GvOut := GvOut.mk [(2, "A", none), (1, "B", none)] []

/-- Graph printed by json2graphviz.py from exampleGraphLines. -/
def exampleGraphOut : GvOut :=
  GvOut.mk [(1, "Generate", some 1), (2, "Sort", some 2), (3, "Size", some 3)]
    [(JValue.num 1, 2), (JValue.num 1, 3), (JValue.num 2, 3)]

/-- Node-dict entry built from one creation tuple (id, label, parents). -/
def toGvNode (t : ℚ × String × List ℚ) : ℚ × GvNode :=
  (t.1, GvNode.mk (JValue.str t.2.1) (JValue.arr (t.2.2.map JValue.num)))

/-- String content of a label value, with a default for non-strings. -/
def labS : JValue → String
  | JValue.str s => s
  | _ => ""

/-! Theorems for the claims. -/

/-- C10: flattening a record in which a nested map and a top-level key
collapse to the same flattened key keeps only the value encountered later in
iteration order, silently; ingestion of such a record emits no diagnostic. -/
theorem c10_flatten_collision_last_wins :
    (∀ v w : ℚ,
      flatten_dicts [("a", JValue.obj [("b", JValue.num v)]), ("a_b", JValue.num w)] "" "_"
        = [("a_b", JValue.num w)]) ∧
    (∀ v w : ℚ,
      flatten_dicts [("a_b", JValue.num w), ("a", JValue.obj [("b", JValue.num v)])] "" "_"
        = [("a_b", JValue.num v)]) ∧
    (∀ v w : ℚ,
      ingestLine (Ingested.mk [] []) (LogLine.mk "x"
          (some [("class", JValue.str "C"), ("a", JValue.obj [("b", JValue.num v)]),
            ("a_b", JValue.num w)]))
        = Ingested.mk [[("class", JValue.str "C"), ("a_b", JValue.num w)]] []) :=
  ⟨fun _ _ => rfl, fun _ _ => rfl, fun _ _ => rfl⟩

/-- C1 counterexample: two worker-rank-0 creation records with id 1 and
labels A then B leave label B in the reconstructed node dict, so the
first-seen label A is not retained. -/
theorem c1_node_conflict_counterexample :
    gvBuild [] conflictLines = Except.ok conflictNodes ∧
    gvLabelOf conflictNodes 1 = some (JValue.str "B") ∧
    ¬ gvLabelOf conflictNodes 1 = some (JValue.str "A") := by
  refine ⟨rfl, rfl, ?_⟩
  rw [show gvLabelOf conflictNodes 1 = some (JValue.str "B") from rfl]
  intro h
  injection h with h1
  injection h1 with h2
  exact absurd h2 (by decide)

/-- Updating an existing key of the json2graphviz.py nodes dict replaces its
value in place. -/
theorem gvDictSet_update (k : ℚ) (v w : GvNode) :
    gvDictSet [(k, v)] k w = [(k, w)] := by
  simp [gvDictSet]

/-- C1 amended: a later creation record with the same id silently overwrites
the first-seen definition (the last label and parent list win) and nothing is
thrown; json2profile.py dia_table likewise keeps both records as separate
rows; no conflict warning exists in either script. -/
theorem c1_node_conflict_amended :
    (∀ (id : ℚ) (l1 l2 : String) (p1 p2 : List ℚ),
      gvBuild [] [mkCreateLine id l1 p1, mkCreateLine id l2 p2]
        = Except.ok [(id, GvNode.mk (JValue.str l2) (JValue.arr (p2.map JValue.num)))]) ∧
    dia_table [mkDiaRec 0 1 "A", mkDiaRec 1 1 "B"]
      = Except.ok [DiaRow.mk 1 "A" (JValue.str "DOp") (JValue.arr []) "A.1",
          DiaRow.mk 1 "B" (JValue.str "DOp") (JValue.arr []) "B.1"] := by
  refine ⟨?_, rfl⟩
  intro id l1 l2 p1 p2
  calc gvBuild [] [mkCreateLine id l1 p1, mkCreateLine id l2 p2]
      = Except.ok (gvDictSet
          (gvDictSet [] id (GvNode.mk (JValue.str l1) (JValue.arr (p1.map JValue.num))))
          id (GvNode.mk (JValue.str l2) (JValue.arr (p2.map JValue.num)))) := rfl
    _ = Except.ok [(id, GvNode.mk (JValue.str l2) (JValue.arr (p2.map JValue.num)))] := by
        rw [show gvDictSet [] id (GvNode.mk (JValue.str l1) (JValue.arr (p1.map JValue.num)))
            = [(id, GvNode.mk (JValue.str l1) (JValue.arr (p1.map JValue.num)))] from rfl]
        rw [gvDictSet_update]

/-- C8 counterexample: json2graphviz.py invoked with zero input files prints
the usage message and exits with status 0, a success status, not a failure
status. -/
theorem c8_exit_status_counterexample :
    gvRun [] (fun _ => none) = GvResult.usage 0 ∧
    gvExitCode (gvRun [] (fun _ => none)) = 0 :=
  ⟨rfl, rfl⟩

/-- C8 amended: a wrong argument count (in particular zero input files)
makes json2graphviz.py print usage and exit 0; an unopenable single file is a
failure naming that file; a readable, parsable file yields the graph and exit
0; json2profile.py with zero files aborts with a KeyError that names no
files. -/
theorem c8_exit_status_amended :
    (∀ fs : String → Option (List LogLine), gvRun [] fs = GvResult.usage 0) ∧
    (∀ (fs : String → Option (List LogLine)) (f : String), fs f = none →
      gvRun [f] fs = GvResult.ioError ("IOError: cannot open " ++ f) ∧
        gvExitCode (gvRun [f] fs) = 1) ∧
    (∀ (fs : String → Option (List LogLine)) (f : String) (lines : List LogLine)
        (nodes : GvDict) (out : GvOut),
      fs f = some lines → gvBuild [] lines = Except.ok nodes →
      gvEmit nodes = Except.ok out →
      gvRun [f] fs = GvResult.done out ∧ gvExitCode (gvRun [f] fs) = 0) ∧
    (profileRun []).result = Except.error "KeyError: ts" := by
  refine ⟨fun fs => rfl, ?_, ?_, rfl⟩
  · intro fs f h
    constructor
    · simp [gvRun, h]
    · simp [gvRun, h, gvExitCode]
  · intro fs f lines nodes out h1 h2 h3
    constructor
    · simp [gvRun, h1, h2, h3]
    · simp [gvRun, h1, h2, h3, gvExitCode]

/-- C8 witness: the amended exit-status behavior at concrete inputs. -/
theorem c8_exit_status_amended_witness :
    gvRun [] (fun _ => none) = GvResult.usage 0 ∧
    gvRun ["x.json"] (fun _ => none) = GvResult.ioError ("IOError: cannot open " ++ "x.json") ∧
    gvRun ["g.json"] (fun _ => some exampleGraphLines) = GvResult.done exampleGraphOut ∧
    (profileRun []).result = Except.error "KeyError: ts" := by
  have h := c8_exit_status_amended
  exact ⟨h.1 (fun _ => none),
    (h.2.1 (fun _ => none) "x.json" rfl).1,
    (h.2.2.1 (fun _ => some exampleGraphLines) "g.json" exampleGraphLines _ _ rfl rfl rfl).1,
    h.2.2.2⟩

/-- C7 counterexample: a batch with one malformed line emits exactly one
diagnostic, and that diagnostic names the line content only; the name of the
source file worker.json does not occur in it. -/
theorem c7_diagnostic_counterexample :
    (profileRun c7File).warnings = ["JSON line invalid: oops not json"] ∧
    ¬ ("worker.json".data <:+: "JSON line invalid: oops not json".data) :=
  ⟨rfl, by decide⟩

/-- C2 counterexample: a stream-close record lacking the rx_net_bytes
counter makes both the stream detail and the summary construction fail with
the integer-conversion error; the record is not degraded to zero. -/
theorem c2_missing_counter_counterexample :
    stream_table c2store = Except.error "ValueError: Cannot convert NA to integer" ∧
    stream_summary_table c2store
      = Except.error "ValueError: Cannot convert NA to integer" :=
  ⟨rfl, rfl⟩

/-- C9 counterexample: a stream-close row whose dia_id 7 resolves to no node
is kept in the detail view with a missing (NaN) label, not the empty string;
the summary view drops the row entirely; a file-close row behaves like the
detail view; no warning is emitted anywhere. -/
theorem c9_unresolved_reference_counterexample :
    stream_table c9store
      = Except.ok [StreamRow.mk (some 0) 5 7 none 0 0 1 2 3 4 5 6 7 8] ∧
    (none : Option String) ≠ some "" ∧
    stream_summary_table c9store = Except.ok [] ∧
    file_table c9store = Except.ok [FileRow.mk none 3 0 4 100] :=
  ⟨rfl, by decide, rfl, rfl⟩

/-- C5: a key never observed in any record makes Series return an empty
series without raising, and SeriesSum returns an empty series without raising
when either of its two keys is never observed. -/
theorem c5_series_absent_key :
    (∀ (store : List PyRec) (sclass key : String), colExists store key = false →
      Series store sclass key = Except.ok []) ∧
    (∀ (store : List PyRec) (sclass key1 key2 : String),
      colExists store key1 = false ∨ colExists store key2 = false →
      SeriesSum store sclass key1 key2 = Except.ok []) := by
  constructor
  · intro store sclass key h
    simp [Series, h]
  · intro store sclass key1 key2 h
    rcases h with h | h <;> simp [SeriesSum, h]

/-- C5 witness: the guards at a concrete store holding one profile record
and a key zzz that occurs nowhere. -/
theorem c5_series_absent_key_witness :
    Series c5store "LinuxProcStats" "zzz" = Except.ok [] ∧
    SeriesSum c5store "LinuxProcStats" "cpu_user" "zzz" = Except.ok [] :=
  ⟨c5_series_absent_key.1 c5store "LinuxProcStats" "zzz" (by decide),
   c5_series_absent_key.2 c5store "LinuxProcStats" "cpu_user" "zzz" (Or.inr (by decide))⟩

/-- Truncation agrees with the floor on nonnegative rationals (Python int()
truncates toward zero, so to the left-closed window start for nonnegative
normalized timestamps). -/
theorem pyInt_nonneg (q : ℚ) (h : 0 ≤ q) : (pyInt q : ℤ) = Int.floor q := by
  rw [pyInt, Int.tdiv_eq_ediv (Rat.num_nonneg.mpr h) (Int.ofNat_nonneg _)]
  exact Rat.floor_def.symm

/-- Truncation of an integer-valued rational is the integer itself. -/
theorem pyInt_intCast (n : ℤ) : pyInt (n : ℚ) = n := by
  rw [pyInt, Rat.num_intCast, Rat.den_intCast]
  exact Int.tdiv_one n

/-- Window starts come out of the groupby strictly ascending. -/
theorem windowKeys_sorted (d : List (ℚ × ℚ)) :
    List.Sorted (fun a b : ℚ => a < b) (windowKeys d) := by
  have hle : List.Sorted (fun a b : ℚ => a ≤ b) (windowKeys d) :=
    List.sorted_insertionSort _ _
  have hnd : (windowKeys d).Nodup :=
    (List.perm_insertionSort _ _).nodup_iff.mpr (List.nodup_dedup _)
  exact List.Sorted.lt_of_le hle hnd

/-- Window starts are exactly the buckets of the points present in the data:
every non-empty window is emitted and empty windows are omitted. -/
theorem windowKeys_mem (d : List (ℚ × ℚ)) (k : ℚ) :
    k ∈ windowKeys d ↔ ∃ p ∈ d, bucketOf p.1 = k := by
  rw [windowKeys, List.mem_insertionSort, List.mem_dedup, List.mem_map]

/-- Evaluation of the mapM loop when the function succeeds on every element. -/
theorem mapM_loop_of_forall_ok {α β : Type} (f : α → Except String β) (g : α → β)
    (l : List α) (hf : ∀ a ∈ l, f a = Except.ok (g a)) (acc : List β) :
    List.mapM.loop f l acc = Except.ok (acc.reverse ++ l.map g) := by
  induction l generalizing acc with
  | nil => simp [List.mapM.loop, pure, Except.pure]
  | cons x xs ih =>
    rw [List.mapM.loop, hf x (by simp)]
    rw [show ((Except.ok (g x) : Except String β) >>= fun b => List.mapM.loop f xs (b :: acc))
        = List.mapM.loop f xs (g x :: acc) from rfl]
    rw [ih (fun a ha => hf a (by simp [ha])) (g x :: acc)]
    simp

/-- Evaluation of mapM when the function succeeds on every element. -/
theorem mapM_of_forall_ok {α β : Type} (f : α → Except String β) (g : α → β)
    (l : List α) (hf : ∀ a ∈ l, f a = Except.ok (g a)) :
    l.mapM f = Except.ok (l.map g) := by
  rw [List.mapM, mapM_loop_of_forall_ok f g l hf []]
  rfl

/-- A successful mapM means the function succeeded on every element. -/
theorem mapM_loop_ok_forall {α β : Type} (f : α → Except String β) :
    ∀ (l : List α) (acc ys : List β), List.mapM.loop f l acc = Except.ok ys →
      ∀ a ∈ l, ∃ b, f a = Except.ok b := by
  intro l
  induction l with
  | nil => intro acc ys _ a ha; cases ha
  | cons x xs ih =>
    intro acc ys h a ha
    rw [List.mapM.loop] at h
    cases hx : f x with
    | error e =>
        rw [hx] at h
        exact absurd h (by simp [Bind.bind, Except.bind])
    | ok y =>
        rw [hx] at h
        rcases List.mem_cons.mp ha with rfl | h2
        · exact ⟨y, hx⟩
        · exact ih (y :: acc) ys h a h2

/-- A successful mapM means the function succeeded on every element. -/
theorem mapM_ok_forall {α β : Type} (f : α → Except String β) (l : List α) (ys : List β)
    (h : l.mapM f = Except.ok ys) : ∀ a ∈ l, ∃ b, f a = Except.ok b :=
  mapM_loop_ok_forall f l [] ys h

/-- On a series without missing cells, xy_aggregated returns one pair per
non-empty window: the window start and the mean of the values in it. -/
theorem xy_aggregated_clean (d : List (ℚ × ℚ)) :
    xy_aggregated (d.map (fun p => (some p.1, some p.2)))
      = Except.ok ((windowKeys d).map (fun k => (k, windowMean d k))) := by
  have h1 : (d.map (fun p => ((some p.1 : Option ℚ), (some p.2 : Option ℚ)))).filterMap
      (fun p => match p.2 with
        | some v => some (p.1, v)
        | none => none)
      = d.map (fun p => ((some p.1 : Option ℚ), p.2)) := by
    induction d with
    | nil => rfl
    | cons a l ih => simp [List.filterMap_cons, ih]
  have h2 : (d.map (fun p => ((some p.1 : Option ℚ), p.2))).mapM
      (fun p => match p.1 with
        | some t => Except.ok ((t, p.2) : ℚ × ℚ)
        | none => Except.error "ValueError: cannot convert float NaN to integer")
      = Except.ok d := by
    rw [mapM_of_forall_ok
      (g := fun p => (p.1.getD 0, p.2))
      (l := d.map (fun p => ((some p.1 : Option ℚ), p.2)))
      _ (by rintro ⟨x, y⟩ ha
            rcases List.mem_map.mp ha with ⟨b, _, hb⟩
            cases hb
            rfl)]
    rw [List.map_map]
    have hid : ((fun (p : Option ℚ × ℚ) => (p.1.getD 0, p.2))
        ∘ fun (p : ℚ × ℚ) => ((some p.1 : Option ℚ), p.2)) = id := by
      funext a
      rfl
    rw [hid, List.map_id]
  unfold xy_aggregated
  rw [h1]
  simp only [h2]
  rfl

unseal Rat.mul Rat.add Rat.sub Rat.inv in
/-- C3: bucketization partitions normalized timestamps into fixed left-closed
windows of width 100, emits for each non-empty window the pair of window
start and arithmetic mean in strictly ascending window order, omits empty
windows, and on the points t 0, 50, 150, 260 with values 1, 2, 3, 4 yields
exactly the three buckets (0, 1.5), (100, 3), (200, 4) in that order. -/
theorem c3_bucketization :
    xy_aggregated c3demo = Except.ok [(0, 3/2), (100, 3), (200, 4)] ∧
    (∀ d : List (ℚ × ℚ),
      xy_aggregated (d.map (fun p => (some p.1, some p.2)))
        = Except.ok ((windowKeys d).map (fun k => (k, windowMean d k)))) ∧
    (∀ d : List (ℚ × ℚ), List.Sorted (fun a b : ℚ => a < b) (windowKeys d)) ∧
    (∀ (d : List (ℚ × ℚ)) (k : ℚ), k ∈ windowKeys d ↔ ∃ p ∈ d, bucketOf p.1 = k) ∧
    (∀ r : ℚ, 0 ≤ r → bucketOf r ≤ r ∧ r < bucketOf r + 100) := by
  refine ⟨rfl, xy_aggregated_clean, windowKeys_sorted, windowKeys_mem, ?_⟩
  intro r hr
  have hq : (0 : ℚ) ≤ r / 1000 * 10 := by positivity
  have hb : bucketOf r = ((Int.floor (r / 100) : ℤ) : ℚ) * 100 := by
    rw [bucketOf, pyInt_nonneg _ hq]
    rw [show r / 1000 * 10 = r / 100 by ring]
    ring
  have hfl : ((Int.floor (r / 100) : ℤ) : ℚ) ≤ r / 100 := Int.floor_le (r / 100)
  have hfu : r / 100 < ((Int.floor (r / 100) : ℤ) : ℚ) + 1 := Int.lt_floor_add_one (r / 100)
  constructor
  · rw [hb]
    nlinarith
  · rw [hb]
    nlinarith

/-- C3 witness: the bucket bound instantiated at the concrete point 150. -/
theorem c3_bucketization_witness :
    bucketOf 150 ≤ 150 ∧ (150 : ℚ) < bucketOf 150 + 100 :=
  c3_bucketization.2.2.2.2 150 (by norm_num)

/-- C6 counterexample: creation records arriving as id 2 then id 1 produce
node statements in that insertion order, 2 before 1, which is not ascending
by id. -/
theorem c6_node_order_counterexample :
    gvRun ["log.json"] (fun _ => some outOfOrderLines) = GvResult.done outOfOrderOut ∧
    outOfOrderOut.nodeStmts.map (fun p => p.1) = [2, 1] ∧
    ¬ List.Sorted (fun a b : ℚ => a ≤ b) (outOfOrderOut.nodeStmts.map (fun p => p.1)) := by
  refine ⟨rfl, rfl, ?_⟩
  intro h
  rw [show outOfOrderOut.nodeStmts.map (fun p => p.1) = [(2 : ℚ), 1] from rfl] at h
  have h2 := (List.sorted_cons.mp h).1 1 (by simp)
  norm_num at h2

/-- Writing a fresh id into the nodes dict appends it at the end of the
iteration order. -/
theorem gvDictSet_fresh (d : GvDict) (k : ℚ) (v : GvNode)
    (h : ∀ p ∈ d, p.1 ≠ k) : gvDictSet d k v = d ++ [(k, v)] := by
  have hneg : ¬ (d.any (fun p => decide (p.1 = k)) = true) := by
    intro hc
    rcases List.any_eq_true.mp hc with ⟨p, hp, hpk⟩
    exact h p hp (by simpa using hpk)
  rw [gvDictSet, if_neg hneg]

/-- Processing one creation record stores its label and parents under its
id. -/
theorem gvStep_create (nodes : GvDict) (id : ℚ) (label : String) (parents : List ℚ) :
    gvStep nodes (mkCreateRec id label parents)
      = Except.ok (gvDictSet nodes id
          (GvNode.mk (JValue.str label) (JValue.arr (parents.map JValue.num)))) := rfl

/-- Reading a batch of creation records with pairwise distinct ids appends
one node per record, in record order. -/
theorem gvBuild_create_lines (recs : List (ℚ × String × List ℚ)) (nodes : GvDict)
    (hdisj : ∀ t ∈ recs, ∀ p ∈ nodes, p.1 ≠ t.1)
    (hnodup : (recs.map (fun t => t.1)).Nodup) :
    gvBuild nodes (recs.map (fun t => mkCreateLine t.1 t.2.1 t.2.2))
      = Except.ok (nodes ++ recs.map toGvNode) := by
  induction recs generalizing nodes with
  | nil => simp [gvBuild]
  | cons t ts ih =>
    have hfresh : gvDictSet nodes t.1
        (GvNode.mk (JValue.str t.2.1) (JValue.arr (t.2.2.map JValue.num)))
        = nodes ++ [toGvNode t] := by
      rw [gvDictSet_fresh]
      · rfl
      · intro p hp
        exact hdisj t (by simp) p hp
    have hdisj2 : ∀ u ∈ ts, ∀ p ∈ nodes ++ [toGvNode t], p.1 ≠ u.1 := by
      intro u hu p hp
      rcases List.mem_append.mp hp with hp2 | hp2
      · exact hdisj u (by simp [hu]) p hp2
      · have hpt : p = toGvNode t := by simpa using hp2
        have hne : t.1 ∉ ts.map (fun t => t.1) := (List.nodup_cons.mp hnodup).1
        intro hk
        exact hne (by
          rw [hpt] at hk
          exact hk ▸ List.mem_map.mpr ⟨u, hu, rfl⟩)
    have hnd2 : (ts.map (fun t => t.1)).Nodup := (List.nodup_cons.mp hnodup).2
    have hrec := ih (nodes ++ [toGvNode t]) hdisj2 hnd2
    rw [List.map_cons]
    show (match gvStep nodes (mkCreateRec t.1 t.2.1 t.2.2) with
      | Except.error e => Except.error e
      | Except.ok n2 => gvBuild n2 (ts.map (fun u => mkCreateLine u.1 u.2.1 u.2.2)))
      = Except.ok (nodes ++ (t :: ts).map toGvNode)
    rw [gvStep_create, hfresh]
    rw [show nodes ++ (t :: ts).map toGvNode
        = (nodes ++ [toGvNode t]) ++ ts.map toGvNode by simp]
    exact hrec

/-- Emission over nodes built from creation tuples: node statements in dict
order with the style classification, edge statements per node in parent-list
order. -/
theorem gvEmit_create (recs : List (ℚ × String × List ℚ)) :
    gvEmit (recs.map toGvNode) = Except.ok (GvOut.mk
      (recs.map (fun t => (t.1, t.2.1, styleColor t.2.1)))
      ((recs.map (fun t => (t.2.2.map JValue.num).map (fun e => (e, t.1)))).flatten)) := by
  unfold gvEmit
  have h1 : (recs.map toGvNode).mapM (fun p => gvNodeStmt p.1 p.2)
      = Except.ok ((recs.map toGvNode).map
          (fun p => (p.1, labS p.2.label, styleColor (labS p.2.label)))) := by
    apply mapM_of_forall_ok
    intro a ha
    rcases List.mem_map.mp ha with ⟨b, _, rfl⟩
    rfl
  have h2 : (recs.map toGvNode).mapM (fun p => gvEdges p.1 p.2)
      = Except.ok ((recs.map toGvNode).map
          (fun p => match p.2.parents with
            | JValue.arr ps => ps.map (fun e => (e, p.1))
            | _ => [])) := by
    apply mapM_of_forall_ok
    intro a ha
    rcases List.mem_map.mp ha with ⟨b, _, rfl⟩
    rfl
  rw [h1]
  simp only [h2]
  rw [List.map_map, List.map_map]
  rfl

/-- C6 amended: the exporter emits node statements in the first-insertion
order of the creation records (dict iteration order, not sorted by id), and
edge statements per node in parent-list order within that node order; the
concrete example for ids 1, 2, 3 with parents [], [1], [1, 2] emits exactly
the edges 1 to 2, 1 to 3, 2 to 3, in that order, and no others. -/
theorem c6_exporter_amended :
    gvRun ["g.json"] (fun _ => some exampleGraphLines) = GvResult.done exampleGraphOut ∧
    exampleGraphOut.edgeStmts = [(JValue.num 1, 2), (JValue.num 1, 3), (JValue.num 2, 3)] ∧
    (∀ recs : List (ℚ × String × List ℚ), (recs.map (fun t => t.1)).Nodup →
      gvBuild [] (recs.map (fun t => mkCreateLine t.1 t.2.1 t.2.2))
        = Except.ok (recs.map toGvNode) ∧
      gvEmit (recs.map toGvNode) = Except.ok (GvOut.mk
        (recs.map (fun t => (t.1, t.2.1, styleColor t.2.1)))
        ((recs.map (fun t => (t.2.2.map JValue.num).map (fun e => (e, t.1)))).flatten))) := by
  refine ⟨rfl, rfl, ?_⟩
  intro recs hnd
  refine ⟨?_, gvEmit_create recs⟩
  have h := gvBuild_create_lines recs [] (by intro t ht p hp; cases hp) hnd
  simpa using h

/-- C6 witness: the general order statement at the three-record example. -/
theorem c6_exporter_amended_witness :
    gvBuild [] ([((1 : ℚ), "Generate", ([] : List ℚ)), (2, "Sort", [1]),
        (3, "Size", [1, 2])].map (fun t => mkCreateLine t.1 t.2.1 t.2.2))
      = Except.ok ([((1 : ℚ), "Generate", ([] : List ℚ)), (2, "Sort", [1]),
          (3, "Size", [1, 2])].map toGvNode) :=
  (c6_exporter_amended.2.2 [((1 : ℚ), "Generate", ([] : List ℚ)), (2, "Sort", [1]),
    (3, "Size", [1, 2])] (by decide)).1

/-- Ingesting a further line never removes already ingested records. -/
theorem ingestLine_stats_mono (acc : Ingested) (ln : LogLine) (x : PyRec)
    (h : x ∈ acc.stats) : x ∈ (ingestLine acc ln).stats := by
  unfold ingestLine
  cases ln.parsed with
  | none => simpa using h
  | some r =>
      by_cases hc : dictHas r "class" = true
      · simp [hc, h]
      · simp [hc, h]

/-- Ingesting a further file never removes already ingested records. -/
theorem ingestFile_stats_mono (lines : List LogLine) (acc : Ingested) (x : PyRec)
    (h : x ∈ acc.stats) : x ∈ (ingestFile acc lines).stats := by
  induction lines generalizing acc with
  | nil => simpa [ingestFile] using h
  | cons l ls ih => exact ih (ingestLine acc l) (ingestLine_stats_mono acc l x h)

/-- A parse failure appends exactly one warning naming the line content and
leaves the record list unchanged. -/
theorem ingestLine_bad (acc : Ingested) (ln : LogLine) (h : ln.parsed = none) :
    ingestLine acc ln
      = Ingested.mk acc.stats (acc.warnings ++ ["JSON line invalid: " ++ ln.text]) := by
  simp [ingestLine, h]

/-- Lines that parse and carry a class key add one record each and never
warn. -/
theorem ingestFile_good (lines : List LogLine) (acc : Ingested)
    (h : ∀ l ∈ lines, ∃ r, l.parsed = some r ∧ dictHas r "class" = true) :
    (ingestFile acc lines).warnings = acc.warnings ∧
    (ingestFile acc lines).stats.length = acc.stats.length + lines.length := by
  induction lines generalizing acc with
  | nil => simp [ingestFile]
  | cons l ls ih =>
    obtain ⟨r, hp, hc⟩ := h l (by simp)
    have hstep : ingestLine acc l
        = Ingested.mk (acc.stats ++ [flatten_dicts r "" "_"]) acc.warnings := by
      simp [ingestLine, hp, hc]
    have hrest := ih (ingestLine acc l) (fun x hx => h x (by simp [hx]))
    constructor
    · rw [show ingestFile acc (l :: ls) = ingestFile (ingestLine acc l) ls from rfl,
        hrest.1, hstep]
    · rw [show ingestFile acc (l :: ls) = ingestFile (ingestLine acc l) ls from rfl,
        hrest.2, hstep]
      simp
      omega

/-- The flattened record of every good line of a file ends up in the record
list. -/
theorem ingestFile_mem (lines : List LogLine) (acc : Ingested) (l : LogLine) (r : PyRec)
    (hl : l ∈ lines) (hp : l.parsed = some r) (hc : dictHas r "class" = true) :
    flatten_dicts r "" "_" ∈ (ingestFile acc lines).stats := by
  induction lines generalizing acc with
  | nil => cases hl
  | cons a as ih =>
    rcases List.mem_cons.mp hl with rfl | h2
    · have hmem : flatten_dicts r "" "_" ∈ (ingestLine acc l).stats := by
        simp [ingestLine, hp, hc]
      exact ingestFile_stats_mono as (ingestLine acc l) _ hmem
    · exact ih (ingestLine acc a) h2

/-- A successful lookup implies dict membership. -/
theorem dictGet_has (r : PyRec) (k : String) (v : JValue) (h : dictGet r k = some v) :
    dictHas r k = true := by
  unfold dictGet at h
  unfold dictHas
  cases hf : r.find? (fun p => p.1 = k) with
  | none => rw [hf] at h; cases h
  | some p =>
      have hmem := List.mem_of_find?_eq_some hf
      have hpred := List.find?_some hf
      exact List.any_eq_true.mpr ⟨p, hmem, hpred⟩

/-- A numeric ts field is stored as a num cell under the ts key. -/
theorem tsKey_get (r : PyRec) (q : ℚ) (h : tsKey r = some q) :
    dictGet r "ts" = some (JValue.num q) := by
  unfold tsKey at h
  cases hg : dictGet r "ts" with
  | none => rw [hg] at h; cases h
  | some v =>
      rw [hg] at h
      cases v <;> simp_all

/-- Shape of a successful batch phase: no file failed to open, some record
carries a ts key, and the ts column has a minimum. -/
theorem profileRun_ok (files : List (String × Option (List LogLine))) (acc : Ingested) (m : ℚ)
    (hrf : readFilesGo files (Ingested.mk [] []) = (acc, none))
    (hany : (acc.stats.any (fun r => dictHas r "ts")) = true)
    (hm : minTs acc.stats = some m) :
    (profileRun files).warnings = acc.warnings ∧
    (profileRun files).result
      = Except.ok ((df_sort acc.stats).map (normalizeRec m)) := by
  unfold profileRun
  rw [hrf]
  dsimp only
  rw [if_pos hany, hm]
  exact ⟨rfl, rfl⟩

/-- C7 amended: a batch whose single file has exactly one unparsable line
among otherwise recognized lines (at least one carrying a numeric timestamp)
yields one normalized record per good line, exactly one diagnostic naming the
line content but not the source file, and the batch phase succeeds. -/
theorem c7_ingestion_amended (name : String) (pre post : List LogLine) (bad : LogLine)
    (hbad : bad.parsed = none)
    (hgood : ∀ l ∈ pre ++ post, ∃ r, l.parsed = some r ∧ dictHas r "class" = true)
    (hts : ∃ l ∈ pre ++ post, ∃ r q, l.parsed = some r ∧ dictHas r "class" = true ∧
      tsKey (flatten_dicts r "" "_") = some q) :
    (profileRun [(name, some (pre ++ bad :: post))]).warnings
      = ["JSON line invalid: " ++ bad.text] ∧
    ∃ recs, (profileRun [(name, some (pre ++ bad :: post))]).result = Except.ok recs ∧
      recs.length = pre.length + post.length := by
  have hsplit : ingestFile (Ingested.mk [] []) (pre ++ bad :: post)
      = ingestFile (ingestLine (ingestFile (Ingested.mk [] []) pre) bad) post := by
    unfold ingestFile
    rw [List.foldl_append, List.foldl_cons]
  have hpreG : ∀ l ∈ pre, ∃ r, l.parsed = some r ∧ dictHas r "class" = true :=
    fun l hl => hgood l (List.mem_append_left post hl)
  have hpostG : ∀ l ∈ post, ∃ r, l.parsed = some r ∧ dictHas r "class" = true :=
    fun l hl => hgood l (List.mem_append_right pre hl)
  have hA := ingestFile_good pre (Ingested.mk [] []) hpreG
  have hB := ingestLine_bad (ingestFile (Ingested.mk [] []) pre) bad hbad
  have hC := ingestFile_good post (ingestLine (ingestFile (Ingested.mk [] []) pre) bad) hpostG
  have hwarn : (ingestFile (Ingested.mk [] []) (pre ++ bad :: post)).warnings
      = ["JSON line invalid: " ++ bad.text] := by
    rw [hsplit, hC.1, hB]
    rw [hA.1]
    simp
  have hlen : (ingestFile (Ingested.mk [] []) (pre ++ bad :: post)).stats.length
      = pre.length + post.length := by
    rw [hsplit, hC.2, hB]
    have h2 : (ingestFile (Ingested.mk [] []) pre).stats.length = pre.length := by
      rw [hA.2]
      simp
    simpa using h2
  obtain ⟨l, hl, r, q, hp, hc, htsq⟩ := hts
  have hmem : flatten_dicts r "" "_"
      ∈ (ingestFile (Ingested.mk [] []) (pre ++ bad :: post)).stats := by
    rw [hsplit]
    rcases List.mem_append.mp hl with hl2 | hl2
    · apply ingestFile_stats_mono
      rw [hB]
      exact ingestFile_mem pre (Ingested.mk [] []) l r hl2 hp hc
    · exact ingestFile_mem post _ l r hl2 hp hc
  have hany : ((ingestFile (Ingested.mk [] []) (pre ++ bad :: post)).stats.any
      (fun r => dictHas r "ts")) = true := by
    apply List.any_eq_true.mpr
    refine ⟨flatten_dicts r "" "_", hmem, ?_⟩
    simpa using dictGet_has _ "ts" _ (tsKey_get _ q htsq)
  have hne : (ingestFile (Ingested.mk [] []) (pre ++ bad :: post)).stats.filterMap tsKey
      ≠ [] :=
    List.ne_nil_of_mem (List.mem_filterMap.mpr ⟨_, hmem, htsq⟩)
  have hmin : ∃ m, minTs (ingestFile (Ingested.mk [] []) (pre ++ bad :: post)).stats
      = some m := by
    unfold minTs
    cases hfm : (ingestFile (Ingested.mk [] []) (pre ++ bad :: post)).stats.filterMap tsKey with
    | nil => exact absurd hfm hne
    | cons x xs => exact ⟨xs.foldl min x, rfl⟩
  obtain ⟨m, hm⟩ := hmin
  have h := profileRun_ok [(name, some (pre ++ bad :: post))]
    (ingestFile (Ingested.mk [] []) (pre ++ bad :: post)) m rfl hany hm
  refine ⟨h.1.trans hwarn, _, h.2, ?_⟩
  rw [List.length_map, df_sort, List.length_insertionSort]
  exact hlen

/-- C7 witness: the amended ingestion behavior at a concrete two-line file. -/
theorem c7_ingestion_amended_witness :
    (profileRun [("worker.json", some ([goodLine] ++ badLine :: []))]).warnings
      = ["JSON line invalid: " ++ badLine.text] ∧
    ∃ recs, (profileRun [("worker.json", some ([goodLine] ++ badLine :: []))]).result
        = Except.ok recs ∧ recs.length = 1 := by
  have h := c7_ingestion_amended "worker.json" [goodLine] [] badLine rfl
    (by
      intro l hl
      simp at hl
      subst hl
      exact ⟨_, rfl, rfl⟩)
    ⟨goodLine, by simp, _, 1000, rfl, rfl, rfl⟩
  simpa using h

/-- A successful bind on Except means the first step succeeded. -/
theorem exbind_ok {α β : Type} {x : Except String α} {f : α → Except String β} {y : β}
    (h : (x >>= f) = Except.ok y) : ∃ a, x = Except.ok a ∧ f a = Except.ok y := by
  cases x with
  | error e => exact absurd h (by simp [Bind.bind, Except.bind])
  | ok a => exact ⟨a, rfl, h⟩

/-- A successful detail-row conversion means every one of the twelve
astype(int) cells was present. -/
theorem streamRowOf_ok_cells (r : PyRec) (s : StreamRow)
    (h : streamRowOf r = Except.ok s) :
    ∀ c ∈ ["id", "dia_id"] ++ streamCols, ∃ z, intCell r c = Except.ok z := by
  unfold streamRowOf at h
  obtain ⟨z1, h1, h⟩ := exbind_ok h
  obtain ⟨z2, h2, h⟩ := exbind_ok h
  obtain ⟨z3, h3, h⟩ := exbind_ok h
  obtain ⟨z4, h4, h⟩ := exbind_ok h
  obtain ⟨z5, h5, h⟩ := exbind_ok h
  obtain ⟨z6, h6, h⟩ := exbind_ok h
  obtain ⟨z7, h7, h⟩ := exbind_ok h
  obtain ⟨z8, h8, h⟩ := exbind_ok h
  obtain ⟨z9, h9, h⟩ := exbind_ok h
  obtain ⟨z10, h10, h⟩ := exbind_ok h
  obtain ⟨z11, h11, h⟩ := exbind_ok h
  obtain ⟨z12, h12, _⟩ := exbind_ok h
  intro c hc
  simp [streamCols] at hc
  rcases hc with rfl | rfl | rfl | rfl | rfl | rfl | rfl | rfl | rfl | rfl | rfl | rfl
  exacts [⟨z1, h1⟩, ⟨z2, h2⟩, ⟨z3, h3⟩, ⟨z4, h4⟩, ⟨z5, h5⟩, ⟨z6, h6⟩,
    ⟨z7, h7⟩, ⟨z8, h8⟩, ⟨z9, h9⟩, ⟨z10, h10⟩, ⟨z11, h11⟩, ⟨z12, h12⟩]

/-- A successful summary-row conversion means every one of the ten
astype(int) cells was present. -/
theorem summaryPreOf_ok_cells (r : PyRec) (s : SummaryPre)
    (h : summaryPreOf r = Except.ok s) :
    ∀ c ∈ ["id", "dia_id", "rx_net_items", "tx_net_items", "rx_net_bytes",
      "tx_net_bytes", "rx_int_items", "tx_int_items", "rx_int_bytes", "tx_int_bytes"],
      ∃ z, intCell r c = Except.ok z := by
  unfold summaryPreOf at h
  obtain ⟨z1, h1, h⟩ := exbind_ok h
  obtain ⟨z2, h2, h⟩ := exbind_ok h
  obtain ⟨z3, h3, h⟩ := exbind_ok h
  obtain ⟨z4, h4, h⟩ := exbind_ok h
  obtain ⟨z5, h5, h⟩ := exbind_ok h
  obtain ⟨z6, h6, h⟩ := exbind_ok h
  obtain ⟨z7, h7, h⟩ := exbind_ok h
  obtain ⟨z8, h8, h⟩ := exbind_ok h
  obtain ⟨z9, h9, h⟩ := exbind_ok h
  obtain ⟨z10, h10, _⟩ := exbind_ok h
  intro c hc
  simp at hc
  rcases hc with rfl | rfl | rfl | rfl | rfl | rfl | rfl | rfl | rfl | rfl
  exacts [⟨z1, h1⟩, ⟨z2, h2⟩, ⟨z3, h3⟩, ⟨z4, h4⟩, ⟨z5, h5⟩, ⟨z6, h6⟩,
    ⟨z7, h7⟩, ⟨z8, h8⟩, ⟨z9, h9⟩, ⟨z10, h10⟩]

/-- C2 amended: a stream-close record missing an expected counter cell (any
of the converted columns) makes stream_table and stream_summary_table
propagate a failure rather than degrade the counter to zero. -/
theorem c2_missing_counter_amended (store : List PyRec) (r : PyRec) (c : String)
    (hmem : r ∈ store)
    (hcls : strCellIs r "class" "Stream" = true)
    (hev : strCellIs r "event" "close" = true)
    (hc : c ∈ ["id", "dia_id"] ++ streamCols)
    (hhost : c ≠ "host_rank") (hwork : c ≠ "worker_rank")
    (hmiss : numCell r c = none) :
    exceptFails (stream_table store) = true ∧
    exceptFails (stream_summary_table store) = true := by
  have hdf : r ∈ store.filter
      (fun x => strCellIs x "class" "Stream" && strCellIs x "event" "close") := by
    apply List.mem_filter.mpr
    refine ⟨hmem, ?_⟩
    rw [hcls, hev]
    rfl
  have h0 : ¬ ((store.filter
      (fun x => strCellIs x "class" "Stream" && strCellIs x "event" "close")).length = 0) := by
    intro h0
    rw [List.length_eq_zero] at h0
    rw [h0] at hdf
    cases hdf
  have hcellfail : ∀ z, ¬ intCell r c = Except.ok z := by
    intro z hz
    unfold intCell at hz
    rw [hmiss] at hz
    exact absurd hz (by simp)
  have hc10 : c ∈ ["id", "dia_id", "rx_net_items", "tx_net_items", "rx_net_bytes",
      "tx_net_bytes", "rx_int_items", "tx_int_items", "rx_int_bytes", "tx_int_bytes"] := by
    simp [streamCols] at hc
    rcases hc with rfl | rfl | rfl | rfl | rfl | rfl | rfl | rfl | rfl | rfl | rfl | rfl <;>
      simp_all
  constructor
  · cases hst : stream_table store with
    | error e => rfl
    | ok t =>
        exfalso
        unfold stream_table at hst
        obtain ⟨u1, hu1, hst⟩ := exbind_ok hst
        obtain ⟨u2, hu2, hst⟩ := exbind_ok hst
        rw [if_neg h0] at hst
        obtain ⟨u3, hu3, hst⟩ := exbind_ok hst
        obtain ⟨rows, hrows, hst⟩ := exbind_ok hst
        obtain ⟨srow, hsr⟩ := mapM_ok_forall _ _ _ hrows r hdf
        obtain ⟨z, hz⟩ := streamRowOf_ok_cells r srow hsr c hc
        exact hcellfail z hz
  · cases hst : stream_summary_table store with
    | error e => rfl
    | ok t =>
        exfalso
        unfold stream_summary_table at hst
        obtain ⟨u1, hu1, hst⟩ := exbind_ok hst
        obtain ⟨u2, hu2, hst⟩ := exbind_ok hst
        rw [if_neg h0] at hst
        obtain ⟨u3, hu3, hst⟩ := exbind_ok hst
        obtain ⟨rows, hrows, hst⟩ := exbind_ok hst
        obtain ⟨srow, hsr⟩ := mapM_ok_forall _ _ _ hrows r hdf
        obtain ⟨z, hz⟩ := summaryPreOf_ok_cells r srow hsr c hc10
        exact hcellfail z hz

/-- C2 witness: the amended failure at the concrete store in which the
second record lacks rx_net_bytes. -/
theorem c2_missing_counter_amended_witness :
    exceptFails (stream_table c2store) = true ∧
    exceptFails (stream_summary_table c2store) = true :=
  c2_missing_counter_amended c2store streamRecMissing "rx_net_bytes"
    (List.mem_cons_of_mem _ (List.mem_cons_self _ _))
    rfl rfl (by simp [streamCols]) (by decide) (by decide) rfl

/-- C9 amended: a stream-close or file-close record whose node reference ds
or dfi differs from every node id n in the graph is retained in the detail
views with a missing (NaN) label rather than an empty string, no warning is
emitted, and the summary view drops the row entirely because groupby excludes
missing group keys. -/
theorem c9_unresolved_reference_amended (n ds dfi : ℤ) (hds : ds ≠ n) (hdf : dfi ≠ n) :
    stream_table [mkDiaRec 0 (n : ℚ) "Map",
        mkStreamRec 0 5 (ds : ℚ) 0 0 1 2 3 4 5 6 7 8,
        mkFileRec 1 3 (dfi : ℚ) 0 4 100]
      = Except.ok [StreamRow.mk (some 0) 5 ds none 0 0 1 2 3 4 5 6 7 8] ∧
    stream_summary_table [mkDiaRec 0 (n : ℚ) "Map",
        mkStreamRec 0 5 (ds : ℚ) 0 0 1 2 3 4 5 6 7 8,
        mkFileRec 1 3 (dfi : ℚ) 0 4 100]
      = Except.ok [] ∧
    file_table [mkDiaRec 0 (n : ℚ) "Map",
        mkStreamRec 0 5 (ds : ℚ) 0 0 1 2 3 4 5 6 7 8,
        mkFileRec 1 3 (dfi : ℚ) 0 4 100]
      = Except.ok [FileRow.mk none 3 0 4 100] := by
  have hnds : ¬ (n = ds) := fun h => hds h.symm
  have hndf : ¬ (n = dfi) := fun h => hdf h.symm
  refine ⟨?_, ?_, ?_⟩
  · simp [stream_table, dia_table, mkDiaRec, mkStreamRec, mkFileRec, requireCol,
      colExists, dictHas, dictGet, strCellIs, numCellIs, numCell, intCell, tsKey,
      streamRowOf, mergeLabel, streamCols, jCell, pyInt_intCast, List.insertionSort,
      List.orderedInsert, Bind.bind, Except.bind, pure, Except.pure, List.mapM,
      List.mapM.loop, List.forM, hnds, hndf, List.filter, List.any, List.find?, streamLe]
    decide
  · simp [stream_summary_table, dia_table, mkDiaRec, mkStreamRec, mkFileRec, requireCol,
      colExists, dictHas, dictGet, strCellIs, numCellIs, numCell, intCell, tsKey,
      summaryPreOf, mergeSummaryLabel, summaryKeys, summarySum, streamCols, jCell,
      pyInt_intCast, List.insertionSort, List.orderedInsert, Bind.bind, Except.bind,
      pure, Except.pure, List.mapM, List.mapM.loop, List.forM, hnds, hndf, List.filter,
      List.any, List.find?]
  · simp [file_table, dia_table, mkDiaRec, mkStreamRec, mkFileRec, requireCol,
      colExists, dictHas, dictGet, strCellIs, numCellIs, numCell, intCell, tsKey,
      filePreOf, itemsPos, streamCols, jCell, pyInt_intCast, List.insertionSort,
      List.orderedInsert, Bind.bind, Except.bind, pure, Except.pure, List.mapM,
      List.mapM.loop, List.forM, hnds, hndf, List.filter, List.any, List.find?]
    decide

/-- C9 witness: the amended retention behavior at node id 1 with unresolved
references 7 and 9. -/
theorem c9_unresolved_reference_amended_witness :
    stream_table [mkDiaRec 0 ((1 : ℤ) : ℚ) "Map",
        mkStreamRec 0 5 ((7 : ℤ) : ℚ) 0 0 1 2 3 4 5 6 7 8,
        mkFileRec 1 3 ((9 : ℤ) : ℚ) 0 4 100]
      = Except.ok [StreamRow.mk (some 0) 5 7 none 0 0 1 2 3 4 5 6 7 8] ∧
    stream_summary_table [mkDiaRec 0 ((1 : ℤ) : ℚ) "Map",
        mkStreamRec 0 5 ((7 : ℤ) : ℚ) 0 0 1 2 3 4 5 6 7 8,
        mkFileRec 1 3 ((9 : ℤ) : ℚ) 0 4 100]
      = Except.ok [] ∧
    file_table [mkDiaRec 0 ((1 : ℤ) : ℚ) "Map",
        mkStreamRec 0 5 ((7 : ℤ) : ℚ) 0 0 1 2 3 4 5 6 7 8,
        mkFileRec 1 3 ((9 : ℤ) : ℚ) 0 4 100]
      = Except.ok [FileRow.mk none 3 0 4 100] :=
  c9_unresolved_reference_amended 1 7 9 (by decide) (by decide)
